import Mathlib

/-!
Shallow embedding of the Adaptive Selection & Evaluation Engine of the SIS
mock-interview server.

Embedded sources:
* `server/src/services/feedback.js` — `FeedbackService.evaluateAnswer`,
  `generateFeedbackText`, `calculateSessionFeedback`;
* `server/src/services/ai/questionStore.js` — `getFilteredQuestions`,
  `getSessionTopicsCovered`;
* `server/src/services/ai/questionSelector.js` — `selectNextQuestion`,
  `aiSelect`, `smartFallbackSelect`, `randomSelect`;
* the answer evaluator (`AnswerEvaluator.evaluateAnswer`, `aiEvaluate`,
  `blendEvaluations`).

Modelling conventions:
* JS strings are `List Char` (the inputs under study are ASCII);
  `String` is kept for the fixed message texts the code assembles.
* JS numbers are `ℚ`; `Math.round x` is `⌊x + 1/2⌋` (JS rounds halves
  toward +∞), `Math.min`/`Math.max` are `min`/`max`.
* `Array.prototype.includes` / `String.prototype.includes` become list
  membership / list-infix (`<:+:`) tests.
* The model client is abstracted as an `Option String`: `none` models a
  call that throws (timeout, transport error); `some s` a call returning
  the raw text `s`.  `Math.random()`-based picks take an extra `ℕ`
  argument `r` and select index `r % length`, covering every index the
  source can pick.
-/

namespace SIS

/-- JS whitespace as relevant to `trim` and `split(/\s+/)` on the ASCII
inputs considered here. -/
def jsIsWs (c : Char) : Bool := c.isWhitespace

/-- `String.prototype.toLowerCase`, ASCII fragment. -/
def jsLower (l : List Char) : List Char := l.map Char.toLower

def trimLeft (l : List Char) : List Char := l.dropWhile jsIsWs

def trimRight (l : List Char) : List Char := (l.reverse.dropWhile jsIsWs).reverse

/-- `String.prototype.trim`. -/
def jsTrim (l : List Char) : List Char := trimRight (trimLeft l)

/-- Split a string at every character satisfying `p`, keeping empty
segments, as JS `split` does: `''.split(',') = ['']`. -/
def splitOnPred (p : Char → Bool) : List Char → List (List Char)
  | [] => [[]]
  | c :: cs =>
    if p c then [] :: splitOnPred p cs
    else
      match splitOnPred p cs with
      | [] => [[c]]
      | s :: rest => (c :: s) :: rest

/-- `str.split(',')`. -/
def splitOnComma (l : List Char) : List (List Char) := splitOnPred (fun c => c = ',') l

/-- `hay.includes(sub)`: substring test. -/
def jsIncludes (hay sub : List Char) : Bool := decide (sub <:+: hay)

/-- `Math.round`: JS rounds half-up (toward +∞). -/
def jsRound (q : ℚ) : ℤ := ⌊q + 1/2⌋

/-- feedback.js line 12: `(question.expected_keywords || '')
.toLowerCase().split(',').map(k => k.trim())`. -/
def parseKeywords (kw : List Char) : List (List Char) :=
  (splitOnComma (jsLower kw)).map jsTrim

/-- feedback.js line 11: the normalized answer text. -/
def answerTextOf (answer : List Char) : List Char := jsTrim (jsLower answer)

/-- feedback.js lines 15–17: keywords that are substrings of the
normalized answer. -/
def matchedOf (answer kw : List Char) : List (List Char) :=
  (parseKeywords kw).filter (fun k => jsIncludes (answerTextOf answer) k)

/-- feedback.js line 72: keywords not contained in the answer. -/
def missedOf (answer kw : List Char) : List (List Char) :=
  (parseKeywords kw).filter (fun k => !(jsIncludes (answerTextOf answer) k))

/-- feedback.js lines 18–20: the unrounded keyword score. -/
def rawKeywordScore (answer kw : List Char) : ℚ :=
  if (parseKeywords kw).length > 0 then
    ((matchedOf answer kw).length : ℚ) / ((parseKeywords kw).length : ℚ) * 100
  else 0

/-- feedback.js line 23: `answerText.split(/\s+/).filter(w => w.length > 0)
.length`.  Splitting at every whitespace character and dropping empty
segments counts exactly the maximal non-whitespace runs, as the regex
split does. -/
def wordCountOf (answer : List Char) : ℕ :=
  ((splitOnPred jsIsWs (answerTextOf answer)).filter (fun w => 0 < w.length)).length

/-- feedback.js lines 24–33 (branches in source order). -/
def lengthScore (wc : ℕ) : ℚ :=
  if 30 ≤ wc ∧ wc ≤ 500 then 100
  else if 15 ≤ wc ∧ wc < 30 then 60
  else if 500 < wc then 70
  else if 5 ≤ wc then 40
  else 0

def isSentencePunct (c : Char) : Bool := c = '.' || c = '!' || c = '?'

/-- Number of maximal runs of characters satisfying `p`; the Boolean
argument records whether the previous character was in a run.  This is
`(answerText.match(/[.!?]+/g) || []).length` for `p = isSentencePunct`. -/
def countRuns (p : Char → Bool) : List Char → Bool → ℕ
  | [], _ => 0
  | c :: cs, inRun =>
    if p c then (if inRun then 0 else 1) + countRuns p cs true
    else countRuns p cs false

/-- feedback.js line 36: `sentenceCount`. -/
def sentenceCountOf (answer : List Char) : ℕ :=
  countRuns isSentencePunct (answerTextOf answer) false

/-- feedback.js lines 37–38. -/
def structureScoreOf (answer : List Char) : ℚ :=
  if 2 ≤ sentenceCountOf answer then 100 else 50

/-- feedback.js lines 41–43: the unrounded overall score. -/
def rawOverall (answer kw : List Char) : ℚ :=
  rawKeywordScore answer kw * 0.5 + lengthScore (wordCountOf answer) * 0.3 +
    structureScoreOf answer * 0.2

/-- feedback.js lines 46–69: strengths, in source push order. -/
def strengthsOf (answer kw : List Char) : List String :=
  (if 70 ≤ rawKeywordScore answer kw then ["Good coverage of key concepts"] else []) ++
  (if 80 ≤ lengthScore (wordCountOf answer) then ["Answer has good depth and detail"] else []) ++
  (if 2 ≤ sentenceCountOf answer then ["Well-structured response"] else [])

/-- feedback.js lines 46–69: weaknesses, in source push order. -/
def weaknessesOf (answer kw : List Char) : List String :=
  (if 70 ≤ rawKeywordScore answer kw then []
   else if 40 ≤ rawKeywordScore answer kw then ["Some important concepts were missing"]
   else ["Many key concepts were not addressed"]) ++
  (if 80 ≤ lengthScore (wordCountOf answer) then []
   else if wordCountOf answer < 30 then ["Answer could be more detailed"]
   else if 500 < wordCountOf answer then ["Answer could be more concise"]
   else []) ++
  (if 2 ≤ sentenceCountOf answer then []
   else ["Consider structuring your answer with multiple points"])

/-- feedback.js lines 72–85: improvement suggestions. -/
def suggestionsOf (answer kw : List Char) : List String :=
  (if 0 < (missedOf answer kw).length then
    ["Consider discussing: " ++
      String.intercalate ", " (((missedOf answer kw).take 3).map (fun l => String.mk l))]
   else []) ++
  (if wordCountOf answer < 30 then ["Provide more examples and explanations"] else []) ++
  (if 2 ≤ sentenceCountOf answer then []
   else ["Break your answer into clear points or steps"])

/-- feedback.js lines 103–125: `generateFeedbackText`. -/
def generateFeedbackText (score : ℤ) (strengths weaknesses : List String) : String :=
  (if 80 ≤ score then "Excellent answer! "
   else if 60 ≤ score then "Good answer with room for improvement. "
   else if 40 ≤ score then "Decent attempt, but needs more depth. "
   else "This answer needs significant improvement. ") ++
  (if 0 < strengths.length then "Strengths: " ++ String.intercalate ", " strengths ++ ". "
   else "") ++
  (if 0 < weaknesses.length then
    "Areas to improve: " ++ String.intercalate ", " weaknesses ++ "."
   else "")

/-- The record returned by `FeedbackService.evaluateAnswer`
(feedback.js lines 87–97). -/
structure EvalResult where
  score : ℤ
  keywordScore : ℤ
  matchedKeywords : List (List Char)
  missedKeywords : List (List Char)
  wordCount : ℕ
  strengths : List String
  weaknesses : List String
  suggestions : List String
  feedback : String
deriving DecidableEq

/-- feedback.js lines 10–98: `FeedbackService.evaluateAnswer`.  The
`question` argument is represented by its `expected_keywords` string
(the only field the computation reads; `ideal_answer` is unused). -/
def evaluateAnswer (answer kw : List Char) : EvalResult :=
  { score := jsRound (rawOverall answer kw)
    keywordScore := jsRound (rawKeywordScore answer kw)
    matchedKeywords := matchedOf answer kw
    missedKeywords := missedOf answer kw
    wordCount := wordCountOf answer
    strengths := strengthsOf answer kw
    weaknesses := weaknessesOf answer kw
    suggestions := suggestionsOf answer kw
    feedback := generateFeedbackText (jsRound (rawOverall answer kw))
      (strengthsOf answer kw) (weaknessesOf answer kw) }

/-- The C1 example answer, "It's a function scoped variable that gets
hoisted" (the apostrophe is assembled from its code point). -/
def answerC1 : List Char :=
  "It".toList ++ [Char.ofNat 39] ++ "s a function scoped variable that gets hoisted".toList

def kwC1 : List Char := "scope,hoisting,block".toList

/-! ## Model-assisted answer evaluator (AnswerEvaluator) -/

/-- The record returned by `AnswerEvaluator.evaluateAnswer`: the heuristic
fields plus the `evaluationMethod` tag. -/
structure FinalEval where
  score : ℤ
  feedback : String
  strengths : List String
  weaknesses : List String
  suggestions : List String
  matchedKeywords : List (List Char)
  missedKeywords : List (List Char)
  keywordScore : ℤ
  wordCount : ℕ
  evaluationMethod : String
deriving DecidableEq

/-- Tag a heuristic result with an evaluation method, as the source's
`{ ...ruleEvaluation, evaluationMethod: m }` spreads do. -/
def withMethod (e : EvalResult) (m : String) : FinalEval :=
  { score := e.score, feedback := e.feedback, strengths := e.strengths,
    weaknesses := e.weaknesses, suggestions := e.suggestions,
    matchedKeywords := e.matchedKeywords, missedKeywords := e.missedKeywords,
    keywordScore := e.keywordScore, wordCount := e.wordCount,
    evaluationMethod := m }

/-- `response.match(/\d+/)`: the first maximal digit run of the response,
if any. -/
def firstDigitRun : List Char → Option (List Char)
  | [] => none
  | c :: cs => if c.isDigit then some (c :: cs.takeWhile Char.isDigit) else firstDigitRun cs

/-- `parseInt` on a digit run. -/
def digitsToNat (ds : List Char) : ℕ :=
  ds.foldl (fun n c => 10 * n + (c.toNat - 48)) 0

/-- `AnswerEvaluator.blendEvaluations` (50/50 blend).  In the source the
qualitative fields are `ruleEval.strengths || []` etc.; a JS array is
always truthy, so those defaults never apply and the fields are copied
verbatim.  `ruleEval.feedback || 'Answer evaluated'` falls back exactly
when the feedback string is empty. -/
def blendEvaluations (aiScore : ℤ) (ruleEval : EvalResult) : FinalEval :=
  { score := jsRound ((aiScore : ℚ) * 0.5 + (ruleEval.score : ℚ) * 0.5)
    feedback := if ruleEval.feedback = "" then "Answer evaluated" else ruleEval.feedback
    strengths := ruleEval.strengths
    weaknesses := ruleEval.weaknesses
    suggestions := ruleEval.suggestions
    matchedKeywords := ruleEval.matchedKeywords
    missedKeywords := ruleEval.missedKeywords
    keywordScore := ruleEval.keywordScore
    wordCount := ruleEval.wordCount
    evaluationMethod := "ai-blended" }

/-- Outcome of a call that may propagate a thrown error. -/
inductive EvalOutcome where
  | result : FinalEval → EvalOutcome
  | thrown : EvalOutcome
deriving DecidableEq

/-- `AnswerEvaluator.evaluateAnswer`.  `aiEnabled` is `isAIEnabled()`
(config flag `AI_ENABLED`), `fallbackFlag` is `shouldFallback()`
(`AI_FALLBACK_TO_RULES !== 'false'`), `modelResponse` abstracts the model
client call (`none` = the call throws; `some s` = it returns text `s`).
`aiEvaluate` extracts the first integer of `s`, clamps it to `[0,100]`,
and throws when there is none; any thrown error is caught and either
recovered into the heuristic result tagged `fallback` or re-thrown,
per the flag. -/
def evaluatorEvaluateAnswer (aiEnabled fallbackFlag : Bool) (modelResponse : Option String)
    (answer kw : List Char) : EvalOutcome :=
  let ruleEvaluation := evaluateAnswer answer kw
  if aiEnabled then
    match modelResponse with
    | none =>
      if fallbackFlag then .result (withMethod ruleEvaluation "fallback") else .thrown
    | some response =>
      match firstDigitRun response.data with
      | none =>
        if fallbackFlag then .result (withMethod ruleEvaluation "fallback") else .thrown
      | some ds =>
        .result (blendEvaluations (min 100 (max 0 (digitsToNat ds : ℤ))) ruleEvaluation)
  else .result (withMethod ruleEvaluation "rules")

/-! ## Question store (questionStore.js) -/

inductive Difficulty where
  | easy | medium | hard
deriving DecidableEq

/-- A question document as built by `QuestionStore.getAllQuestions`
(metadata flattened).  Difficulties in the question bank are exactly
`easy`/`medium`/`hard`, modelled as an enumeration. -/
structure QuestionDoc where
  id : String
  content : String
  category : String
  role : String
  topic : String
  difficulty : Difficulty
  expectedKeywords : List String
  idealAnswer : String
  timeLimit : ℕ
deriving DecidableEq

/-- `QuestionStore.getFilteredQuestions` (questionStore.js lines 54–72)
over the cached question list `qs`.  `none` models an absent filter;
`excludeIds.includes` is list membership. -/
def getFilteredQuestions (qs : List QuestionDoc) (role : Option String)
    (difficulty : Option Difficulty) (category : Option String)
    (excludeIds : List String) : List QuestionDoc :=
  qs.filter (fun q =>
    !(decide (q.id ∈ excludeIds)) &&
    (match role with
     | none => true
     | some r => decide (q.role = r) || decide (q.role = "any")) &&
    (match difficulty with
     | none => true
     | some d => decide (q.difficulty = d)) &&
    (match category with
     | none => true
     | some c => decide (q.category = c)))

/-- `QuestionStore.getSessionTopicsCovered` (lines 103–115): topics of the
answered questions, first occurrences kept (a JS `Set` in insertion
order). -/
def getSessionTopicsCovered (qs : List QuestionDoc) (answeredQuestionIds : List String) :
    List String :=
  answeredQuestionIds.foldl (fun acc i =>
    match qs.find? (fun q => decide (q.id = i)) with
    | some q => if q.topic ∈ acc then acc else acc ++ [q.topic]
    | none => acc) []

/-! ## Adaptive selector (questionSelector.js) -/

/-- The session context destructured by `selectNextQuestion`. -/
structure SessionContext where
  role : Option String
  difficulty : Option Difficulty
  answeredQuestionIds : List String
  totalQuestions : ℕ
  recentScores : List ℚ
deriving DecidableEq

structure SelectionResult where
  question : QuestionDoc
  reasoning : String
  suggestedDifficulty : Option Difficulty
  selectionMethod : String
deriving DecidableEq

/-- Outcome of `selectNextQuestion`: a result (`null` = `none`) or a
propagated thrown error. -/
inductive SelectOutcome where
  | result : Option SelectionResult → SelectOutcome
  | thrown : SelectOutcome
deriving DecidableEq

/-- questionSelector.js lines 170–172: average recent score, 50 when no
scores yet. -/
def avgScoreOf (recentScores : List ℚ) : ℚ :=
  if recentScores.isEmpty then 50 else recentScores.sum / (recentScores.length : ℚ)

/-- questionSelector.js lines 175–179: difficulty preference order. -/
def difficultyOrder (avgScore : ℚ) : List Difficulty :=
  if 70 ≤ avgScore then [.hard, .medium, .easy]
  else if 50 ≤ avgScore then [.medium, .easy, .hard]
  else [.easy, .medium, .hard]

/-- Index of a difficulty in a preference order (`Array.indexOf`). -/
def diffRank (ord : List Difficulty) (d : Difficulty) : ℕ := ord.indexOf d

/-- questionSelector.js lines 181–185: `candidates.sort((a, b) =>
aOrder - bOrder)`.  `Array.prototype.sort` is stable and the key takes
only the values 0, 1, 2 (the three orders are permutations of the three
difficulties), so the sorted array is exactly the rank-0 entries followed
by the rank-1 entries followed by the rank-2 entries, each group in
original order. -/
def stableSortByRank (ord : List Difficulty) (cs : List QuestionDoc) : List QuestionDoc :=
  cs.filter (fun q => decide (diffRank ord q.difficulty = 0)) ++
  cs.filter (fun q => decide (diffRank ord q.difficulty = 1)) ++
  cs.filter (fun q => decide (diffRank ord q.difficulty = 2))

/-- questionSelector.js lines 157–167: restrict to questions whose topic
is not yet covered; if that empties the pool, keep every available
question. -/
def fallbackCandidates (qs : List QuestionDoc) (ctx : SessionContext)
    (available : List QuestionDoc) : List QuestionDoc :=
  let topicsCovered := getSessionTopicsCovered qs ctx.answeredQuestionIds
  let candidates := available.filter (fun q => !(decide (q.topic ∈ topicsCovered)))
  if candidates.isEmpty then available else candidates

/-- The candidate pool of `smartFallbackSelect` after the difficulty
sort (lines 157–185). -/
def sortedCandidates (qs : List QuestionDoc) (ctx : SessionContext)
    (available : List QuestionDoc) : List QuestionDoc :=
  stableSortByRank (difficultyOrder (avgScoreOf ctx.recentScores))
    (fallbackCandidates qs ctx available)

/-- `QuestionSelector.smartFallbackSelect` (lines 153–197).  The random
pick among the top candidates is modelled by the index `r % length`;
`none` can only arise from an empty candidate list (where the source
would produce an `undefined` question). -/
def smartFallbackSelect (qs : List QuestionDoc) (ctx : SessionContext)
    (available : List QuestionDoc) (r : ℕ) : Option SelectionResult :=
  let sorted := sortedCandidates qs ctx available
  let topCandidates := sorted.take (min 3 sorted.length)
  (topCandidates.get? (r % topCandidates.length)).map (fun q =>
    { question := q
      reasoning := "Selected based on topic diversity and difficulty appropriateness"
      suggestedDifficulty := some q.difficulty
      selectionMethod := "fallback" })

/-- `QuestionSelector.randomSelect` (lines 202–210). -/
def randomSelect (questions : List QuestionDoc) (r : ℕ) : Option SelectionResult :=
  (questions.get? (r % questions.length)).map (fun q =>
    { question := q
      reasoning := "Randomly selected from available questions"
      suggestedDifficulty := some q.difficulty
      selectionMethod := "random" })

/-- `QuestionSelector.aiSelect` after a successful model call returning
`response` (lines 90–148): scan the candidates in order for one whose id
occurs in the trimmed response; if none does, fall back to
`smartFallbackSelect` unconditionally. -/
def aiSelect (qs : List QuestionDoc) (ctx : SessionContext)
    (available : List QuestionDoc) (response : String) (r : ℕ) : Option SelectionResult :=
  match available.find? (fun q => jsIncludes (jsTrim response.data) q.id.data) with
  | some q =>
    some { question := q, reasoning := "AI selected", suggestedDifficulty := none,
           selectionMethod := "ai" }
  | none => smartFallbackSelect qs ctx available r

/-- `QuestionSelector.selectNextQuestion` (lines 39–85). `aiEnabled`,
`fallbackFlag` and `modelResponse` are as in
`evaluatorEvaluateAnswer`; the model call throwing (`none`) is caught
and either recovered through `smartFallbackSelect` or re-thrown
according to `shouldFallback()`. -/
def selectNextQuestion (qs : List QuestionDoc) (aiEnabled fallbackFlag : Bool)
    (modelResponse : Option String) (r : ℕ) (ctx : SessionContext) : SelectOutcome :=
  let availableQuestions :=
    getFilteredQuestions qs ctx.role ctx.difficulty none ctx.answeredQuestionIds
  if availableQuestions.isEmpty then
    let fallbackQuestions := getFilteredQuestions qs ctx.role none none ctx.answeredQuestionIds
    if fallbackQuestions.isEmpty then .result none
    else .result (randomSelect fallbackQuestions r)
  else if aiEnabled then
    match modelResponse with
    | some response => .result (aiSelect qs ctx availableQuestions response r)
    | none =>
      if fallbackFlag then .result (smartFallbackSelect qs ctx availableQuestions r)
      else .thrown
  else .result (smartFallbackSelect qs ctx availableQuestions r)

/-! ## Session feedback aggregation (feedback.js lines 130–203) -/

/-- One persisted answer row as read by `calculateSessionFeedback`:
a possibly-null score and a possibly-absent topic. -/
structure SessionAnswer where
  score : Option ℚ
  topic : Option String
deriving DecidableEq

structure SessionFeedback where
  overallScore : ℤ
  topicScores : List (String × ℤ)
  strengths : List String
  weaknesses : List String
  recommendations : List String
  readinessScore : ℤ
deriving DecidableEq

/-- Topics in first-appearance order (JS object key insertion order). -/
def topicKeysOf (answers : List SessionAnswer) : List String :=
  (answers.filterMap (fun a => a.topic)).foldl
    (fun acc t => if t ∈ acc then acc else acc ++ [t]) []

/-- Rounded mean score of the answers on one topic (null scores count as
0 via `a.score || 0`, but still count toward the denominator). -/
def topicScoreOf (answers : List SessionAnswer) (t : String) : ℤ :=
  let relevant := answers.filter (fun a => decide (a.topic = some t))
  jsRound ((relevant.map (fun a => a.score.getD 0)).sum / (relevant.length : ℚ))

/-- `FeedbackService.calculateSessionFeedback` (lines 130–203). -/
def calculateSessionFeedback (answers : List SessionAnswer) : SessionFeedback :=
  if answers.isEmpty then
    { overallScore := 0, topicScores := [], strengths := [], weaknesses := [],
      recommendations := [], readinessScore := 0 }
  else
    let validScores := answers.filter (fun a => a.score.isSome)
    let overallScore : ℤ :=
      if 0 < validScores.length then
        jsRound ((validScores.map (fun a => a.score.getD 0)).sum / (validScores.length : ℚ))
      else 0
    let topicScores := (topicKeysOf answers).map (fun t => (t, topicScoreOf answers t))
    let strengths := (topicScores.filter (fun p => decide (70 ≤ p.2))).map Prod.fst
    let weaknesses := (topicScores.filter (fun p => decide (p.2 < 50))).map Prod.fst
    let recommendations :=
      (if 0 < weaknesses.length then
        ["Focus on improving: " ++ String.intercalate ", " weaknesses]
       else []) ++
      [if overallScore < 50 then "Review fundamental concepts and practice more"
       else if overallScore < 70 then "Good foundation, now work on depth and examples"
       else "Strong performance! Try harder difficulty questions"]
    let readinessScore :=
      min 100 (jsRound ((overallScore : ℚ) * 0.6 + (min answers.length 10 : ℚ) * 4))
    { overallScore := overallScore, topicScores := topicScores, strengths := strengths,
      weaknesses := weaknesses, recommendations := recommendations,
      readinessScore := readinessScore }

/-! ## Concrete data used to instantiate hypotheses -/

def qHard : QuestionDoc :=
  { id := "q-hard", content := "Explain the event loop.", category := "technical",
    role := "frontend", topic := "JS", difficulty := .hard, expectedKeywords := [],
    idealAnswer := "", timeLimit := 300 }

def qEasy : QuestionDoc :=
  { id := "q-easy", content := "What is var?", category := "technical",
    role := "frontend", topic := "Basics", difficulty := .easy, expectedKeywords := [],
    idealAnswer := "", timeLimit := 180 }

/-- A fresh session: nothing answered, no scores yet. -/
def ctx0 : SessionContext :=
  { role := none, difficulty := none, answeredQuestionIds := [], totalQuestions := 5,
    recentScores := [] }

/-! ## General-purpose lemmas -/

theorem splitOnPred_ne_nil (p : Char → Bool) (l : List Char) : splitOnPred p l ≠ [] := by
  induction l with
  | nil => simp [splitOnPred]
  | cons c cs ih =>
    simp only [splitOnPred]
    split
    · simp
    · rcases h : splitOnPred p cs with _ | ⟨s, rest⟩ <;> simp

theorem parseKeywords_length_pos (kw : List Char) : 0 < (parseKeywords kw).length := by
  have h := splitOnPred_ne_nil (fun c => c = ',') (jsLower kw)
  simp only [parseKeywords, splitOnComma, List.length_map]
  exact List.length_pos.mpr h

theorem filterLengthMono {α : Type} (p q : α → Bool) (l : List α)
    (h : ∀ x ∈ l, p x = true → q x = true) :
    (l.filter p).length ≤ (l.filter q).length := by
  induction l with
  | nil => simp
  | cons x xs ih =>
    have ih' := ih (fun y hy hp => h y (List.mem_cons_of_mem x hy) hp)
    by_cases hp : p x = true
    · have hq := h x (List.mem_cons_self x xs) hp
      simp only [List.filter_cons, hp, if_true, hq, List.length_cons]
      omega
    · have hp' : p x = false := by simpa using hp
      by_cases hq : q x = true
      · simp only [List.filter_cons, hp', hq, Bool.false_eq_true, if_false, if_true,
          List.length_cons]
        omega
      · have hq' : q x = false := by simpa using hq
        simp only [List.filter_cons, hp', hq', Bool.false_eq_true, if_false]
        exact ih'

theorem matched_length_le (a kw : List Char) :
    (matchedOf a kw).length ≤ (parseKeywords kw).length :=
  List.length_filter_le _ _

theorem rawKeywordScore_nonneg (a kw : List Char) : 0 ≤ rawKeywordScore a kw := by
  unfold rawKeywordScore
  split
  · positivity
  · exact le_refl 0

theorem rawKeywordScore_le_100 (a kw : List Char) : rawKeywordScore a kw ≤ 100 := by
  unfold rawKeywordScore
  split
  · rename_i hpos
    have hn : (0:ℚ) < ((parseKeywords kw).length : ℚ) := by exact_mod_cast hpos
    have hm : ((matchedOf a kw).length : ℚ) ≤ ((parseKeywords kw).length : ℚ) := by
      exact_mod_cast matched_length_le a kw
    have h1 : ((matchedOf a kw).length : ℚ) / ((parseKeywords kw).length : ℚ) ≤ 1 :=
      (div_le_one hn).mpr hm
    calc ((matchedOf a kw).length : ℚ) / ((parseKeywords kw).length : ℚ) * 100
        ≤ 1 * 100 := by nlinarith
      _ = 100 := by norm_num
  · norm_num

theorem lengthScore_nonneg (wc : ℕ) : 0 ≤ lengthScore wc := by
  unfold lengthScore; split_ifs <;> norm_num

theorem lengthScore_le_100 (wc : ℕ) : lengthScore wc ≤ 100 := by
  unfold lengthScore; split_ifs <;> norm_num

theorem structureScoreOf_ge_50 (a : List Char) : 50 ≤ structureScoreOf a := by
  unfold structureScoreOf; split <;> norm_num

theorem structureScoreOf_le_100 (a : List Char) : structureScoreOf a ≤ 100 := by
  unfold structureScoreOf; split <;> norm_num

theorem rawOverall_ge_10 (a kw : List Char) : 10 ≤ rawOverall a kw := by
  have h1 := rawKeywordScore_nonneg a kw
  have h2 := lengthScore_nonneg (wordCountOf a)
  have h3 := structureScoreOf_ge_50 a
  unfold rawOverall
  nlinarith

theorem rawOverall_le_100 (a kw : List Char) : rawOverall a kw ≤ 100 := by
  have h1 := rawKeywordScore_le_100 a kw
  have h2 := lengthScore_le_100 (wordCountOf a)
  have h3 := structureScoreOf_le_100 a
  unfold rawOverall
  nlinarith

theorem jsRound_mono {x y : ℚ} (h : x ≤ y) : jsRound x ≤ jsRound y :=
  Int.floor_le_floor (by linarith)

theorem jsRound_le_100 {q : ℚ} (h : q ≤ 100) : jsRound q ≤ 100 := by
  have h1 : jsRound q ≤ jsRound 100 := jsRound_mono h
  have h2 : jsRound (100 : ℚ) = 100 := by unfold jsRound; norm_num
  omega

theorem ge_10_jsRound {q : ℚ} (h : 10 ≤ q) : 10 ≤ jsRound q := by
  have h1 : jsRound (10 : ℚ) ≤ jsRound q := jsRound_mono h
  have h2 : jsRound (10 : ℚ) = 10 := by unfold jsRound; norm_num
  omega

/-! ## Substring-monotonicity machinery (for C9) -/

theorem dropWhile_decomp (p : Char → Bool) (l : List Char) :
    ∃ u, u ++ l.dropWhile p = l := by
  induction l with
  | nil => exact ⟨[], rfl⟩
  | cons c cs ih =>
    by_cases hc : p c = true
    · obtain ⟨u, hu⟩ := ih
      refine ⟨c :: u, ?_⟩
      simp [List.dropWhile, hc, hu]
    · have hc' : p c = false := by simpa using hc
      exact ⟨[], by simp [List.dropWhile, hc']⟩

theorem trimRight_append_mono (z y : List Char) : trimRight z <:+: trimRight (z ++ y) := by
  unfold trimRight
  rw [List.reverse_append, List.dropWhile_append]
  split
  · exact ⟨[], [], by simp⟩
  · rw [List.reverse_append, List.reverse_reverse]
    obtain ⟨u, hu⟩ := dropWhile_decomp jsIsWs z.reverse
    have hz : (List.dropWhile jsIsWs z.reverse).reverse ++ u.reverse = z := by
      have := congrArg List.reverse hu
      simpa [List.reverse_append] using this
    exact ⟨[], u.reverse ++ (List.dropWhile jsIsWs y.reverse).reverse, by
      simp only [List.nil_append, ← List.append_assoc, hz]⟩

theorem jsTrim_append_mono (x y : List Char) : jsTrim x <:+: jsTrim (x ++ y) := by
  unfold jsTrim trimLeft
  rw [List.dropWhile_append]
  split
  · rename_i he
    have hx : List.dropWhile jsIsWs x = [] := by simpa using he
    rw [hx]
    have : trimRight ([] : List Char) = [] := by simp [trimRight]
    rw [this]
    exact ⟨trimRight (List.dropWhile jsIsWs y), [], by simp⟩
  · exact trimRight_append_mono _ _

theorem jsIncludes_append_mono (a e k : List Char)
    (h : jsIncludes (answerTextOf a) k = true) :
    jsIncludes (answerTextOf (a ++ e)) k = true := by
  unfold jsIncludes answerTextOf jsLower at *
  rw [List.map_append]
  have h' := of_decide_eq_true h
  exact decide_eq_true (h'.trans (jsTrim_append_mono _ _))

theorem rawKeywordScore_append_mono (a e kw : List Char) :
    rawKeywordScore a kw ≤ rawKeywordScore (a ++ e) kw := by
  unfold rawKeywordScore
  split
  · rename_i hpos
    have hn : (0:ℚ) < ((parseKeywords kw).length : ℚ) := by exact_mod_cast hpos
    have hcount : ((matchedOf a kw).length : ℚ) ≤ ((matchedOf (a ++ e) kw).length : ℚ) := by
      exact_mod_cast filterLengthMono _ _ (parseKeywords kw)
        (fun k _ hk => jsIncludes_append_mono a e k hk)
    gcongr
  · exact le_refl 0

/-! ## Claim theorems -/

/-- C9: adding the text of an expected keyword to the end of the answer
never decreases the heuristic keyword score. -/
theorem c9_keywordScore_monotone (a kws k : List Char) (_hk : k ∈ parseKeywords kws) :
    (evaluateAnswer a kws).keywordScore ≤ (evaluateAnswer (a ++ k) kws).keywordScore := by
  simp only [evaluateAnswer]
  exact jsRound_mono (rawKeywordScore_append_mono a k kws)

theorem c9_witness :
    ("scope".toList ∈ parseKeywords kwC1) ∧
      (evaluateAnswer answerC1 kwC1).keywordScore ≤
        (evaluateAnswer (answerC1 ++ "scope".toList) kwC1).keywordScore :=
  ⟨by decide, c9_keywordScore_monotone answerC1 kwC1 "scope".toList (by decide)⟩

/-- C3: the heuristic evaluator's score is between 0 and 100, and the
matched and missed keyword lists partition the parsed expected-keyword
list (they are disjoint and their union is the whole list). -/
theorem c3_score_bounds_and_partition (a kw : List Char) :
    (0 ≤ (evaluateAnswer a kw).score ∧ (evaluateAnswer a kw).score ≤ 100) ∧
    (∀ k, k ∈ (evaluateAnswer a kw).matchedKeywords →
      k ∉ (evaluateAnswer a kw).missedKeywords) ∧
    (∀ k, k ∈ parseKeywords kw ↔
      (k ∈ (evaluateAnswer a kw).matchedKeywords ∨
       k ∈ (evaluateAnswer a kw).missedKeywords)) := by
  refine ⟨⟨?_, ?_⟩, ?_, ?_⟩
  · have h := rawOverall_ge_10 a kw
    have := ge_10_jsRound h
    simp only [evaluateAnswer]
    omega
  · exact jsRound_le_100 (rawOverall_le_100 a kw)
  · intro k hkm hkM
    simp only [evaluateAnswer, matchedOf, missedOf, List.mem_filter] at hkm hkM
    rw [hkm.2] at hkM
    simp at hkM
  · intro k
    simp only [evaluateAnswer, matchedOf, missedOf, List.mem_filter]
    constructor
    · intro hk
      by_cases hm : jsIncludes (answerTextOf a) k = true
      · exact Or.inl ⟨hk, hm⟩
      · exact Or.inr ⟨hk, by simpa using hm⟩
    · rintro (⟨hk, _⟩ | ⟨hk, _⟩) <;> exact hk

theorem c3_witness :
    ("scope".toList ∈ (evaluateAnswer answerC1 kwC1).matchedKeywords) ∧
      ("scope".toList ∉ (evaluateAnswer answerC1 kwC1).missedKeywords) :=
  ⟨by decide, (c3_score_bounds_and_partition answerC1 kwC1).2.1 "scope".toList (by decide)⟩

/-- C10: the heuristic evaluator's overall score is always at least 10
(the structure component alone contributes 0.2 × 50), and 10 is attained,
for instance by the empty answer with expected keywords `scope`. -/
theorem c10_score_floor :
    (∀ a kw : List Char, 10 ≤ (evaluateAnswer a kw).score) ∧
      (evaluateAnswer [] "scope".toList).score = 10 := by
  constructor
  · intro a kw
    simp only [evaluateAnswer]
    exact ge_10_jsRound (rawOverall_ge_10 a kw)
  · have h1 : matchedOf [] "scope".toList = [] := by decide
    have h2 : (parseKeywords "scope".toList).length = 1 := by decide
    have h3 : wordCountOf [] = 0 := by decide
    have h4 : sentenceCountOf [] = 0 := by decide
    simp only [evaluateAnswer, rawOverall, rawKeywordScore, structureScoreOf, h1, h2, h3, h4]
    norm_num [jsRound, lengthScore]

theorem append3_ne_empty {p r1 r2 : String} (hp : 0 < p.length) : p ++ r1 ++ r2 ≠ "" := by
  intro h
  have hlen := congrArg String.length h
  rw [String.length_append, String.length_append,
    show ("" : String).length = 0 from rfl] at hlen
  omega

theorem generateFeedbackText_ne_empty (s : ℤ) (st wk : List String) :
    generateFeedbackText s st wk ≠ "" := by
  unfold generateFeedbackText
  apply append3_ne_empty
  split_ifs <;> decide

/-- C4: when the model call succeeds and its response parses to a score,
the evaluator returns the 50/50 blend of the clamped model score and the
heuristic score, carries every qualitative heuristic field verbatim, and
tags the result `ai-blended`. -/
theorem c4_blend_formula (f : Bool) (response : String) (answer kw ds : List Char)
    (h : firstDigitRun response.data = some ds) :
    evaluatorEvaluateAnswer true f (some response) answer kw =
      .result
        { score := jsRound (((min 100 (max 0 (digitsToNat ds : ℤ)) : ℤ) : ℚ) * 0.5 +
            ((evaluateAnswer answer kw).score : ℚ) * 0.5)
          feedback := (evaluateAnswer answer kw).feedback
          strengths := (evaluateAnswer answer kw).strengths
          weaknesses := (evaluateAnswer answer kw).weaknesses
          suggestions := (evaluateAnswer answer kw).suggestions
          matchedKeywords := (evaluateAnswer answer kw).matchedKeywords
          missedKeywords := (evaluateAnswer answer kw).missedKeywords
          keywordScore := (evaluateAnswer answer kw).keywordScore
          wordCount := (evaluateAnswer answer kw).wordCount
          evaluationMethod := "ai-blended" } := by
  have hf : (evaluateAnswer answer kw).feedback ≠ "" :=
    generateFeedbackText_ne_empty _ _ _
  simp only [evaluatorEvaluateAnswer, h, if_true, blendEvaluations, if_neg hf]

theorem c4_witness :
    (firstDigitRun "Score: 85 overall".data = some "85".toList) ∧
      evaluatorEvaluateAnswer true true (some "Score: 85 overall") [] [] =
        .result
          { score := jsRound (((min 100 (max 0 (digitsToNat "85".toList : ℤ)) : ℤ) : ℚ) * 0.5 +
              ((evaluateAnswer [] []).score : ℚ) * 0.5)
            feedback := (evaluateAnswer [] []).feedback
            strengths := (evaluateAnswer [] []).strengths
            weaknesses := (evaluateAnswer [] []).weaknesses
            suggestions := (evaluateAnswer [] []).suggestions
            matchedKeywords := (evaluateAnswer [] []).matchedKeywords
            missedKeywords := (evaluateAnswer [] []).missedKeywords
            keywordScore := (evaluateAnswer [] []).keywordScore
            wordCount := (evaluateAnswer [] []).wordCount
            evaluationMethod := "ai-blended" } :=
  ⟨by decide, c4_blend_formula true "Score: 85 overall" [] [] "85".toList (by decide)⟩

/-- C2 (code bug): for the empty expected-keyword string the code's own
`length > 0 ? … : 0` guard intends `keywordScore = 0`, but
`''.split(',')` yields `['']`, the empty keyword is a substring of every
answer, and the computed keyword score is 100. -/
theorem c2_empty_keywords_evaluate_to_100 :
    (evaluateAnswer "hello".toList []).keywordScore = 100 ∧
      (evaluateAnswer "hello".toList []).matchedKeywords = [[]] := by
  constructor
  · have m1 : matchedOf "hello".toList [] = [[]] := by decide
    have m3 : (parseKeywords ([] : List Char)).length = 1 := by decide
    simp only [evaluateAnswer, rawKeywordScore, m1, m3]
    unfold jsRound
    norm_num
  · decide

theorem c1_rawKeywordScore : rawKeywordScore answerC1 kwC1 = 100 / 3 := by
  have m1 : matchedOf answerC1 kwC1 = ["scope".toList] := by decide
  have m3 : (parseKeywords kwC1).length = 3 := by decide
  simp only [rawKeywordScore, m1, m3]
  norm_num

theorem c1_keywordScore : (evaluateAnswer answerC1 kwC1).keywordScore = 33 := by
  simp only [evaluateAnswer, c1_rawKeywordScore]
  unfold jsRound
  norm_num

theorem c1_lengthScore : lengthScore (wordCountOf answerC1) = 40 := by decide

theorem c1_structureScore : structureScoreOf answerC1 = 50 := by decide

theorem c1_score : (evaluateAnswer answerC1 kwC1).score = 39 := by
  simp only [evaluateAnswer, rawOverall, c1_rawKeywordScore, c1_lengthScore, c1_structureScore]
  unfold jsRound
  norm_num

/-- C1 (counterexample): on the example input the evaluator does NOT
produce the values the claim states — `hoisting` is not a substring of
the answer (which says "hoisted"), the keyword score is not 67, the word
count is not 9 and the overall score is not 56. -/
theorem c1_counterexample :
    ¬((evaluateAnswer answerC1 kwC1).keywordScore = 67 ∧
      (evaluateAnswer answerC1 kwC1).wordCount = 9 ∧
      (evaluateAnswer answerC1 kwC1).score = 56 ∧
      "hoisting".toList ∈ (evaluateAnswer answerC1 kwC1).matchedKeywords) := by
  rintro ⟨h, -, -, -⟩
  have := c1_keywordScore
  omega

/-- C1 (amended): on the example answer against keywords
`scope,hoisting,block` the evaluator matches only `scope`, misses
`hoisting` and `block`, and yields keywordScore 33, wordCount 8,
lengthScore 40, structureScore 50 and overall score 39. -/
theorem c1_amended_example :
    (evaluateAnswer answerC1 kwC1).matchedKeywords = ["scope".toList] ∧
    (evaluateAnswer answerC1 kwC1).missedKeywords = ["hoisting".toList, "block".toList] ∧
    (evaluateAnswer answerC1 kwC1).keywordScore = 33 ∧
    (evaluateAnswer answerC1 kwC1).wordCount = 8 ∧
    lengthScore (wordCountOf answerC1) = 40 ∧
    structureScoreOf answerC1 = 50 ∧
    (evaluateAnswer answerC1 kwC1).score = 39 :=
  ⟨by decide, by decide, c1_keywordScore, by decide, c1_lengthScore, c1_structureScore,
    c1_score⟩

/-- The fallback selection of `qHard` out of a one-question pool. -/
def resHardFallback : SelectionResult :=
  { question := qHard
    reasoning := "Selected based on topic diversity and difficulty appropriateness"
    suggestedDifficulty := some .hard
    selectionMethod := "fallback" }

/-- C5 (counterexample): with fallback disabled, a model response that
contains no candidate id does NOT propagate an error from the select
call — `aiSelect` falls back to the heuristic selection unconditionally,
so the call still returns a `fallback`-tagged result. -/
theorem c5_counterexample :
    selectNextQuestion [qHard] true false (some "zzz") 0 ctx0 =
      .result (some resHardFallback) := by decide

/-- C5 (amended): model-call errors in both the evaluator and the
selector honour the fallback flag (recover to the heuristic path when it
is enabled, propagate the thrown error when it is disabled), and a
parse failure in the evaluator does too; but a select-side parse failure
(no candidate id in the response) always falls back to the heuristic
selection, regardless of the flag. -/
theorem c5_amended_fallback_policy :
    (∀ answer kw : List Char,
      evaluatorEvaluateAnswer true true none answer kw =
        .result (withMethod (evaluateAnswer answer kw) "fallback") ∧
      evaluatorEvaluateAnswer true false none answer kw = .thrown) ∧
    (∀ (answer kw : List Char) (response : String),
      firstDigitRun response.data = none →
      evaluatorEvaluateAnswer true true (some response) answer kw =
        .result (withMethod (evaluateAnswer answer kw) "fallback") ∧
      evaluatorEvaluateAnswer true false (some response) answer kw = .thrown) ∧
    (∀ (qs : List QuestionDoc) (ctx : SessionContext) (r : ℕ),
      (getFilteredQuestions qs ctx.role ctx.difficulty none
        ctx.answeredQuestionIds).isEmpty = false →
      selectNextQuestion qs true true none r ctx =
        .result (smartFallbackSelect qs ctx
          (getFilteredQuestions qs ctx.role ctx.difficulty none ctx.answeredQuestionIds) r) ∧
      selectNextQuestion qs true false none r ctx = .thrown) ∧
    (∀ (qs : List QuestionDoc) (ctx : SessionContext) (r : ℕ) (response : String) (f : Bool),
      (getFilteredQuestions qs ctx.role ctx.difficulty none
        ctx.answeredQuestionIds).isEmpty = false →
      (getFilteredQuestions qs ctx.role ctx.difficulty none ctx.answeredQuestionIds).find?
        (fun q => jsIncludes (jsTrim response.data) q.id.data) = none →
      selectNextQuestion qs true f (some response) r ctx =
        .result (smartFallbackSelect qs ctx
          (getFilteredQuestions qs ctx.role ctx.difficulty none ctx.answeredQuestionIds) r)) := by
  refine ⟨fun answer kw => ⟨rfl, rfl⟩, ?_, ?_, ?_⟩
  · intro answer kw response h
    constructor <;> simp [evaluatorEvaluateAnswer, h]
  · intro qs ctx r h
    constructor <;> simp [selectNextQuestion, h]
  · intro qs ctx r response f h hfind
    simp [selectNextQuestion, h, aiSelect, hfind]

theorem c5_witness :
    (evaluatorEvaluateAnswer true false none [] [] = .thrown) ∧
    (firstDigitRun "no score here".data = none ∧
      evaluatorEvaluateAnswer true false (some "no score here") [] [] = .thrown) ∧
    ((getFilteredQuestions [qHard] ctx0.role ctx0.difficulty none
        ctx0.answeredQuestionIds).isEmpty = false ∧
      selectNextQuestion [qHard] true false none 0 ctx0 = .thrown) ∧
    (selectNextQuestion [qHard] true false (some "zzz") 0 ctx0 =
      .result (smartFallbackSelect [qHard] ctx0
        (getFilteredQuestions [qHard] ctx0.role ctx0.difficulty none
          ctx0.answeredQuestionIds) 0)) :=
  ⟨(c5_amended_fallback_policy.1 [] []).2,
   ⟨by decide, (c5_amended_fallback_policy.2.1 [] [] "no score here" (by decide)).2⟩,
   ⟨by decide, (c5_amended_fallback_policy.2.2.1 [qHard] ctx0 0 (by decide)).2⟩,
   c5_amended_fallback_policy.2.2.2 [qHard] ctx0 0 "zzz" false (by decide) (by decide)⟩

/-! ## Membership lemmas for the selector -/

theorem mem_getFiltered_not_excluded {qs : List QuestionDoc} {role : Option String}
    {diff : Option Difficulty} {cat : Option String} {excl : List String} {q : QuestionDoc}
    (h : q ∈ getFilteredQuestions qs role diff cat excl) : q.id ∉ excl := by
  have h2 := (List.mem_filter.mp h).2
  intro hid
  simp [hid] at h2

theorem mem_stableSortByRank {ord : List Difficulty} {cs : List QuestionDoc}
    {q : QuestionDoc} (h : q ∈ stableSortByRank ord cs) : q ∈ cs := by
  unfold stableSortByRank at h
  rcases List.mem_append.mp h with h1 | h1
  · rcases List.mem_append.mp h1 with h2 | h2 <;> exact (List.mem_filter.mp h2).1
  · exact (List.mem_filter.mp h1).1

theorem mem_fallbackCandidates {qs : List QuestionDoc} {ctx : SessionContext}
    {avail : List QuestionDoc} {q : QuestionDoc}
    (h : q ∈ fallbackCandidates qs ctx avail) : q ∈ avail := by
  simp only [fallbackCandidates] at h
  split at h
  · exact h
  · exact (List.mem_filter.mp h).1

theorem smartFallbackSelect_mem {qs : List QuestionDoc} {ctx : SessionContext}
    {avail : List QuestionDoc} {r : ℕ} {res : SelectionResult}
    (h : smartFallbackSelect qs ctx avail r = some res) : res.question ∈ avail := by
  simp only [smartFallbackSelect] at h
  rcases Option.map_eq_some'.mp h with ⟨q, hq, hres⟩
  have htop := List.get?_mem hq
  have hsorted := List.mem_of_mem_take htop
  have hmem := mem_fallbackCandidates (mem_stableSortByRank hsorted)
  subst hres
  exact hmem

theorem randomSelect_mem {l : List QuestionDoc} {r : ℕ} {res : SelectionResult}
    (h : randomSelect l r = some res) : res.question ∈ l := by
  simp only [randomSelect] at h
  rcases Option.map_eq_some'.mp h with ⟨q, hq, hres⟩
  have := List.get?_mem hq
  subst hres
  exact this

/-- C6: whatever path the selector takes (random, ai, or heuristic
fallback), a returned question was never answered before. -/
theorem c6_no_repeat (qs : List QuestionDoc) (aiE fbF : Bool) (resp : Option String)
    (r : ℕ) (ctx : SessionContext) (res : SelectionResult)
    (h : selectNextQuestion qs aiE fbF resp r ctx = .result (some res)) :
    res.question.id ∉ ctx.answeredQuestionIds := by
  simp only [selectNextQuestion] at h
  by_cases h1 : (getFilteredQuestions qs ctx.role ctx.difficulty none
      ctx.answeredQuestionIds).isEmpty = true
  · rw [if_pos h1] at h
    by_cases h2 : (getFilteredQuestions qs ctx.role none none
        ctx.answeredQuestionIds).isEmpty = true
    · rw [if_pos h2] at h
      simp at h
    · rw [if_neg h2] at h
      have h3 : randomSelect (getFilteredQuestions qs ctx.role none none
          ctx.answeredQuestionIds) r = some res := by
        simpa using h
      exact mem_getFiltered_not_excluded (randomSelect_mem h3)
  · rw [if_neg h1] at h
    cases aiE with
    | false =>
      have h3 : smartFallbackSelect qs ctx (getFilteredQuestions qs ctx.role ctx.difficulty
          none ctx.answeredQuestionIds) r = some res := by
        simpa using h
      exact mem_getFiltered_not_excluded (smartFallbackSelect_mem h3)
    | true =>
      cases resp with
      | none =>
        cases fbF with
        | false => simp at h
        | true =>
          have h3 : smartFallbackSelect qs ctx (getFilteredQuestions qs ctx.role
              ctx.difficulty none ctx.answeredQuestionIds) r = some res := by
            simpa using h
          exact mem_getFiltered_not_excluded (smartFallbackSelect_mem h3)
      | some response =>
        have h3 : aiSelect qs ctx (getFilteredQuestions qs ctx.role ctx.difficulty none
            ctx.answeredQuestionIds) response r = some res := by
          simpa using h
        simp only [aiSelect] at h3
        cases hf : (getFilteredQuestions qs ctx.role ctx.difficulty none
            ctx.answeredQuestionIds).find?
            (fun q => jsIncludes (jsTrim response.data) q.id.data) with
        | some q =>
          rw [hf] at h3
          have hq := List.mem_of_find?_eq_some hf
          have : res.question = q := by
            cases h3
            rfl
          rw [this]
          exact mem_getFiltered_not_excluded hq
        | none =>
          rw [hf] at h3
          exact mem_getFiltered_not_excluded (smartFallbackSelect_mem h3)

theorem c6_witness :
    (selectNextQuestion [qHard] false false none 0 ctx0 = .result (some resHardFallback)) ∧
      resHardFallback.question.id ∉ ctx0.answeredQuestionIds :=
  ⟨by decide, c6_no_repeat [qHard] false false none 0 ctx0 resHardFallback (by decide)⟩

/-! ## C7 machinery -/

theorem take_min_length {α : Type} (l : List α) (n : ℕ) :
    l.take (min n l.length) = l.take n := by
  rcases le_total n l.length with h | h
  · rw [min_eq_left h]
  · rw [min_eq_right h, List.take_length, List.take_of_length_le h]

/-- In a list assembled from a hard band, a medium band and an easy band,
every index holding a hard question precedes every index holding an easy
one. -/
theorem banded_hard_before_easy (A B C : List QuestionDoc)
    (hA : ∀ q ∈ A, q.difficulty = .hard) (hB : ∀ q ∈ B, q.difficulty = .medium)
    (hC : ∀ q ∈ C, q.difficulty = .easy)
    (i j : ℕ) (hi : i < (A ++ B ++ C).length) (hj : j < (A ++ B ++ C).length)
    (hhard : ((A ++ B ++ C).get ⟨i, hi⟩).difficulty = .hard)
    (heasy : ((A ++ B ++ C).get ⟨j, hj⟩).difficulty = .easy) : i < j := by
  simp only [List.get_eq_getElem] at hhard heasy
  have hlenAB : (A ++ B).length = A.length + B.length := List.length_append _ _
  have hlenABC : (A ++ B ++ C).length = (A ++ B).length + C.length :=
    List.length_append _ _
  have hiA : i < A.length := by
    by_contra hni
    push_neg at hni
    by_cases hiAB : i < (A ++ B).length
    · have hiB : i - A.length < B.length := by omega
      have h1 : (A ++ B ++ C)[i] = (A ++ B)[i] := List.getElem_append_left hiAB
      have h2 : (A ++ B)[i] = B[i - A.length] := List.getElem_append_right hni
      rw [h1, h2] at hhard
      have hmem : B[i - A.length] ∈ B := List.getElem_mem hiB
      rw [hB _ hmem] at hhard
      exact absurd hhard (by decide)
    · push_neg at hiAB
      have hiC : i - (A ++ B).length < C.length := by omega
      have h1 : (A ++ B ++ C)[i] = C[i - (A ++ B).length] :=
        List.getElem_append_right hiAB
      rw [h1] at hhard
      have hmem : C[i - (A ++ B).length] ∈ C := List.getElem_mem hiC
      rw [hC _ hmem] at hhard
      exact absurd hhard (by decide)
  have hjA : A.length ≤ j := by
    by_contra hnj
    push_neg at hnj
    have hjAB : j < (A ++ B).length := by omega
    have h1 : (A ++ B ++ C)[j] = (A ++ B)[j] := List.getElem_append_left hjAB
    have h2 : (A ++ B)[j] = A[j] := List.getElem_append_left hnj
    rw [h1, h2] at heasy
    have hmem : A[j] ∈ A := List.getElem_mem hnj
    rw [hA _ hmem] at heasy
    exact absurd heasy (by decide)
  omega

theorem mem_filter_rank_zero_hard {cs : List QuestionDoc} {q : QuestionDoc}
    (h : q ∈ cs.filter
      (fun q => decide (diffRank [.hard, .medium, .easy] q.difficulty = 0))) :
    q.difficulty = .hard := by
  have h0 := of_decide_eq_true (List.mem_filter.mp h).2
  cases hd : q.difficulty
  · rw [hd] at h0; exact absurd h0 (by decide)
  · rw [hd] at h0; exact absurd h0 (by decide)
  · rfl

theorem mem_filter_rank_one_medium {cs : List QuestionDoc} {q : QuestionDoc}
    (h : q ∈ cs.filter
      (fun q => decide (diffRank [.hard, .medium, .easy] q.difficulty = 1))) :
    q.difficulty = .medium := by
  have h0 := of_decide_eq_true (List.mem_filter.mp h).2
  cases hd : q.difficulty
  · rw [hd] at h0; exact absurd h0 (by decide)
  · rfl
  · rw [hd] at h0; exact absurd h0 (by decide)

theorem mem_filter_rank_two_easy {cs : List QuestionDoc} {q : QuestionDoc}
    (h : q ∈ cs.filter
      (fun q => decide (diffRank [.hard, .medium, .easy] q.difficulty = 2))) :
    q.difficulty = .easy := by
  have h0 := of_decide_eq_true (List.mem_filter.mp h).2
  cases hd : q.difficulty
  · rfl
  · rw [hd] at h0; exact absurd h0 (by decide)
  · rw [hd] at h0; exact absurd h0 (by decide)

/-- C7: the fallback selection computes the average recent score (50 when
empty), picks the difficulty preference order by the 70/50 thresholds,
stable-sorts candidates into the corresponding difficulty bands, and
returns one of the first three sorted candidates; with recent scores
90 and 85 the order is hard-first, so in the sorted candidate list every
hard question precedes every easy one. -/
theorem c7_fallback_difficulty_policy :
    (∀ avg : ℚ,
      (70 ≤ avg → difficultyOrder avg = [.hard, .medium, .easy]) ∧
      (50 ≤ avg → avg < 70 → difficultyOrder avg = [.medium, .easy, .hard]) ∧
      (avg < 50 → difficultyOrder avg = [.easy, .medium, .hard])) ∧
    (∀ (qs : List QuestionDoc) (ctx : SessionContext) (avail : List QuestionDoc)
      (r : ℕ) (res : SelectionResult),
      smartFallbackSelect qs ctx avail r = some res →
      res.question ∈ (sortedCandidates qs ctx avail).take 3) ∧
    (∀ (qs : List QuestionDoc) (ctx : SessionContext) (avail : List QuestionDoc),
      ctx.recentScores = [90, 85] →
      sortedCandidates qs ctx avail =
        (fallbackCandidates qs ctx avail).filter (fun q => decide (q.difficulty = .hard)) ++
        (fallbackCandidates qs ctx avail).filter (fun q => decide (q.difficulty = .medium)) ++
        (fallbackCandidates qs ctx avail).filter (fun q => decide (q.difficulty = .easy))) ∧
    (∀ (cs : List QuestionDoc) (i j : ℕ)
      (hi : i < (stableSortByRank [.hard, .medium, .easy] cs).length)
      (hj : j < (stableSortByRank [.hard, .medium, .easy] cs).length),
      ((stableSortByRank [.hard, .medium, .easy] cs).get ⟨i, hi⟩).difficulty = .hard →
      ((stableSortByRank [.hard, .medium, .easy] cs).get ⟨j, hj⟩).difficulty = .easy →
      i < j) := by
  refine ⟨?_, ?_, ?_, ?_⟩
  · intro avg
    refine ⟨?_, ?_, ?_⟩
    · intro h
      unfold difficultyOrder
      rw [if_pos h]
    · intro h1 h2
      unfold difficultyOrder
      rw [if_neg (by linarith), if_pos h1]
    · intro h
      unfold difficultyOrder
      rw [if_neg (by linarith), if_neg (by linarith)]
  · intro qs ctx avail r res h
    simp only [smartFallbackSelect] at h
    rcases Option.map_eq_some'.mp h with ⟨q, hq, hres⟩
    have hmem := List.get?_mem hq
    rw [take_min_length] at hmem
    subst hres
    exact hmem
  · intro qs ctx avail h
    unfold sortedCandidates
    rw [h]
    have havg : avgScoreOf [90, 85] = 175 / 2 := by
      unfold avgScoreOf
      norm_num [List.sum_cons, List.sum_nil]
    have hord : difficultyOrder (avgScoreOf [90, 85]) = [.hard, .medium, .easy] := by
      rw [havg]
      unfold difficultyOrder
      rw [if_pos (by norm_num)]
    rw [hord]
    unfold stableSortByRank
    congr 1
    · congr 1
      · apply List.filter_congr
        intro q _
        cases q.difficulty <;> rfl
      · apply List.filter_congr
        intro q _
        cases q.difficulty <;> rfl
    · apply List.filter_congr
      intro q _
      cases q.difficulty <;> rfl
  · intro cs i j hi hj hhard heasy
    exact banded_hard_before_easy _ _ _
      (fun q hq => mem_filter_rank_zero_hard hq)
      (fun q hq => mem_filter_rank_one_medium hq)
      (fun q hq => mem_filter_rank_two_easy hq)
      i j hi hj hhard heasy

/-- The session context after two strong answers (scores 90 and 85). -/
def ctx85 : SessionContext :=
  { role := none, difficulty := none, answeredQuestionIds := [], totalQuestions := 5,
    recentScores := [90, 85] }

theorem c7_witness :
    ((70 : ℚ) ≤ 75 ∧ difficultyOrder 75 = [.hard, .medium, .easy]) ∧
    (smartFallbackSelect [] ctx0 [qHard] 0 = some resHardFallback ∧
      resHardFallback.question ∈ (sortedCandidates [] ctx0 [qHard]).take 3) ∧
    (ctx85.recentScores = [90, 85] ∧
      sortedCandidates [] ctx85 [qHard] =
        (fallbackCandidates [] ctx85 [qHard]).filter
          (fun q => decide (q.difficulty = .hard)) ++
        (fallbackCandidates [] ctx85 [qHard]).filter
          (fun q => decide (q.difficulty = .medium)) ++
        (fallbackCandidates [] ctx85 [qHard]).filter
          (fun q => decide (q.difficulty = .easy))) ∧
    ((stableSortByRank [.hard, .medium, .easy] [qEasy, qHard]).get
        ⟨0, by decide⟩).difficulty = .hard ∧
    ((stableSortByRank [.hard, .medium, .easy] [qEasy, qHard]).get
        ⟨1, by decide⟩).difficulty = .easy ∧
    (0 : ℕ) < 1 :=
  ⟨⟨by decide, (c7_fallback_difficulty_policy.1 75).1 (by decide)⟩,
   ⟨by decide, c7_fallback_difficulty_policy.2.1 [] ctx0 [qHard] 0 resHardFallback (by decide)⟩,
   ⟨rfl, c7_fallback_difficulty_policy.2.2.1 [] ctx85 [qHard] rfl⟩,
   by decide, by decide,
   c7_fallback_difficulty_policy.2.2.2 [qEasy, qHard] 0 1 (by decide) (by decide)
     (by decide) (by decide)⟩

/-! ## C8: session aggregation -/

/-- The example session [A:80, A:60, B:30]. -/
def exAnswers : List SessionAnswer :=
  [⟨some 80, some "A"⟩, ⟨some 60, some "A"⟩, ⟨some 30, some "B"⟩]

theorem c8_general_readiness (answers : List SessionAnswer) :
    (calculateSessionFeedback answers).readinessScore =
      min 100 (jsRound (((calculateSessionFeedback answers).overallScore : ℚ) * 0.6 +
        (min answers.length 10 : ℚ) * 4)) := by
  by_cases h : answers.isEmpty = true
  · have hnil := List.isEmpty_iff.mp h
    subst hnil
    simp only [calculateSessionFeedback, List.isEmpty_nil, if_true]
    norm_num [jsRound]
  · have h' : answers.isEmpty = false := by simpa using h
    simp only [calculateSessionFeedback, h', Bool.false_eq_true, if_false]

theorem c8ex_overall : (calculateSessionFeedback exAnswers).overallScore = 57 := by
  have hvalid : exAnswers.filter (fun a => a.score.isSome) = exAnswers := by decide
  simp only [calculateSessionFeedback, exAnswers, List.isEmpty_cons, Bool.false_eq_true,
    if_false, hvalid]
  norm_num [List.sum_cons, List.sum_nil, jsRound]

theorem c8ex_topicA : topicScoreOf exAnswers "A" = 70 := by
  have hrel : exAnswers.filter (fun a => decide (a.topic = some "A")) =
      [⟨some 80, some "A"⟩, ⟨some 60, some "A"⟩] := by decide
  simp only [topicScoreOf, hrel]
  norm_num [List.sum_cons, List.sum_nil, jsRound]

theorem c8ex_topicB : topicScoreOf exAnswers "B" = 30 := by
  have hrel : exAnswers.filter (fun a => decide (a.topic = some "B")) =
      [⟨some 30, some "B"⟩] := by decide
  simp only [topicScoreOf, hrel]
  norm_num [List.sum_cons, List.sum_nil, jsRound]

theorem c8ex_topicScores :
    (calculateSessionFeedback exAnswers).topicScores = [("A", 70), ("B", 30)] := by
  have hkeys : topicKeysOf exAnswers = ["A", "B"] := by decide
  have hne : exAnswers.isEmpty = false := by decide
  simp only [calculateSessionFeedback, hne, Bool.false_eq_true, if_false]
  rw [show topicKeysOf exAnswers = ["A", "B"] from hkeys]
  simp only [List.map_cons, List.map_nil, c8ex_topicA, c8ex_topicB]

/-- C8: on the example session the aggregator yields topic scores A=70
and B=30, strengths [A], weaknesses [B], overall score 57 and readiness
score 46; and in general the readiness score is
`min(100, round(0.6 × overall + 4 × min(answerCount, 10)))`. -/
theorem c8_session_aggregation :
    ((calculateSessionFeedback exAnswers).overallScore = 57 ∧
     (calculateSessionFeedback exAnswers).topicScores = [("A", 70), ("B", 30)] ∧
     (calculateSessionFeedback exAnswers).strengths = ["A"] ∧
     (calculateSessionFeedback exAnswers).weaknesses = ["B"] ∧
     (calculateSessionFeedback exAnswers).readinessScore = 46) ∧
    (∀ answers : List SessionAnswer,
      (calculateSessionFeedback answers).readinessScore =
        min 100 (jsRound (((calculateSessionFeedback answers).overallScore : ℚ) * 0.6 +
          (min answers.length 10 : ℚ) * 4))) := by
  refine ⟨⟨c8ex_overall, c8ex_topicScores, ?_, ?_, ?_⟩, c8_general_readiness⟩
  · have hkeys : topicKeysOf exAnswers = ["A", "B"] := by decide
    have hne : exAnswers.isEmpty = false := by decide
    simp only [calculateSessionFeedback, hne, Bool.false_eq_true, if_false]
    rw [show topicKeysOf exAnswers = ["A", "B"] from hkeys]
    simp only [List.map_cons, List.map_nil, c8ex_topicA, c8ex_topicB]
    decide
  · have hkeys : topicKeysOf exAnswers = ["A", "B"] := by decide
    have hne : exAnswers.isEmpty = false := by decide
    simp only [calculateSessionFeedback, hne, Bool.false_eq_true, if_false]
    rw [show topicKeysOf exAnswers = ["A", "B"] from hkeys]
    simp only [List.map_cons, List.map_nil, c8ex_topicA, c8ex_topicB]
    decide
  · rw [c8_general_readiness, c8ex_overall]
    have hlen : (min exAnswers.length 10 : ℚ) = 3 := by
      norm_num [exAnswers]
    rw [hlen]
    norm_num [jsRound]

end SIS
